import Mathlib

/-!
Shallow embedding of the Planeverb FDTD grid engine
(src/ProjectPlaneverb/src/FDTD/FDTD.cpp) and of the client interface
functions defined in the same file.

Modelling conventions:
* the C++ `Real` (float) is modelled by `ℚ`; the claims checked here are
  about exact structural facts (zeroing, ordering, index arithmetic,
  determinism) that hold sample-for-sample in either arithmetic;
* the C `(int)` cast of a real value is `ratTrunc` (truncation toward zero);
* the dense cell array `m_grid` is a `List Cell`; `getCell` models a read
  `m_grid[i]`: an index outside the allocated range yields the `default`
  cell (the source performs an unchecked memory access there);
* in-place per-node loops whose writes never feed reads of other nodes in
  the same phase (this is the case for all five phases: each phase writes
  one field that it only ever reads at the node being written, before the
  write) are embedded as maps over the index range of the loop.
-/

/-- One grid node of the Cell Store: pressure, the two velocity components,
and the two 0/1 boundary-axis flags (`b` for the x axis, `bY` for the
source's `by`, the y axis). -/
structure Cell where
  pr : ℚ
  vx : ℚ
  vy : ℚ
  b : ℤ
  bY : ℤ
  deriving DecidableEq, Repr

instance : Inhabited Cell := ⟨{ pr := 0, vx := 0, vy := 0, b := 0, bY := 0 }⟩

/-- Per-node boundary descriptor (`m_boundaries[i]`): absorption coefficient
and the normal vector, whose components the source truncates to int when
forming the neighbor index. -/
structure BoundaryInfo where
  absorption : ℚ
  normalX : ℚ
  normalY : ℚ
  deriving DecidableEq, Repr

instance : Inhabited BoundaryInfo := ⟨{ absorption := 0, normalX := 0, normalY := 0 }⟩

/-- World-space position (the engine reads only the `x` and `z` fields). -/
structure vec3 where
  x : ℚ
  y : ℚ
  z : ℚ
  deriving DecidableEq, Repr

/-- Execution mode selector `PlaneverbExecutionType`. -/
inductive PlaneverbExecutionType where
  | pv_CPU
  | pv_GPU
  deriving DecidableEq, Repr

/-- Error code thrown by the GPU path (`throw pv_InvalidConfig`). -/
inductive PlaneverbErrorCode where
  | pv_InvalidConfig
  deriving DecidableEq, Repr

/-- Truncation toward zero, the semantics of the C `(int)` cast applied to
a real value (Lean's `Int.div` rounds toward zero). -/
def ratTrunc (q : ℚ) : ℤ := Int.tdiv q.num q.den

/-- The state owned by `Grid`.  `gridSizeX`/`gridSizeY` are the integer
values `(int)m_gridSize.x` / `(int)m_gridSize.y`; `pvC` and `pvRho` stand
for the global constants `PV_C` and `PV_RHO` (defined in headers that are
not part of the excerpt); `pulseResponse` is the Response Cube, node-major:
one time series per node. -/
structure GridState where
  gridSizeX : ℤ
  gridSizeY : ℤ
  dx : ℚ
  dt : ℚ
  z_inv : ℚ
  pvC : ℚ
  pvRho : ℚ
  gridOffsetX : ℚ
  gridOffsetY : ℚ
  responseLength : ℕ
  maxThreads : ℕ
  executionType : PlaneverbExecutionType
  pulse : List ℚ
  grid : List Cell
  boundaries : List BoundaryInfo
  pulseResponse : List (List Cell)

/-- Read of `m_grid[i]` with a signed index; an index outside the allocated
range (an out-of-bounds access in the source) yields the default cell. -/
def getCell (cells : List Cell) (i : ℤ) : Cell :=
  if 0 ≤ i then cells.getD i.toNat default else default

/-- Read of `m_boundaries[i]` with a signed index. -/
def getBnd (bnd : List BoundaryInfo) (i : ℤ) : BoundaryInfo :=
  if 0 ≤ i then bnd.getD i.toNat default else default

/-- The per-run constants of `GenerateResponseCPU`: grid dimensions and the
precomputed update constants `Cv`, `Cprv` (with `Courant = dt / dx`). -/
structure SimP where
  gridx : ℤ
  gridy : ℤ
  Cv : ℚ
  Cprv : ℚ
  z_inv : ℚ
  dt : ℚ
  deriving DecidableEq, Repr

/-- Lines 90-96: the constants computed at the top of `GenerateResponseCPU`:
`Courant = m_dt / m_dx`, `Cv = PV_C * Courant * m_z_inv`,
`Cprv = Courant * PV_RHO * PV_C * PV_C`. -/
def paramsOf (g : GridState) : SimP :=
  { gridx := g.gridSizeX
    gridy := g.gridSizeY
    Cv := g.pvC * (g.dt / g.dx) * g.z_inv
    Cprv := (g.dt / g.dx) * g.pvRho * g.pvC * g.pvC
    z_inv := g.z_inv
    dt := g.dt }

/-- `loopSize = (int)(incdim.x) * (int)(incdim.y)` (line 103). -/
def loopSize (P : SimP) : ℤ := (P.gridx + 1) * (P.gridy + 1)

/-- `loopSize` as a natural number, the length of the embedded cell list. -/
def loopSizeNat (P : SimP) : ℕ := (loopSize P).toNat

/-- Line 140: index of `nextCellX`, `(i + gridy + 1) * B`. -/
def nextXIndex (gridy i B : ℤ) : ℤ := (i + gridy + 1) * B

/-- Line 142: index of `nextCellY`, `(i + 1) * B`. -/
def nextYIndex (i B : ℤ) : ℤ := (i + 1) * B

/-- Line 170: index of `prevCell` in the velocity-x phase, `(i - gridy - 1) * B`. -/
def prevXIndex (gridy i B : ℤ) : ℤ := (i - gridy - 1) * B

/-- Line 198: index of `prevCell` in the velocity-y phase, `(i - 1) * B`. -/
def prevYIndex (i B : ℤ) : ℤ := (i - 1) * B

/-- Lines 159/187: `normalInd = i + (int)normal.y * (gridy + 1) + (int)normal.x`. -/
def normalIndex (gridy i : ℤ) (n : BoundaryInfo) : ℤ :=
  i + ratTrunc n.normalY * (gridy + 1) + ratTrunc n.normalX

/-- Lines 111-121: reset of pressure and both velocity components of every
node; the boundary flags are not touched. -/
def resetCells (cells : List Cell) : List Cell :=
  cells.map (fun c => { pr := 0, vx := 0, vy := 0, b := c.b, bY := c.bY })

/-- Lines 126-150, the pressure phase: for each `i` in `[0, loopSize)`,
`pr := (pr - Cprv * divergence) / (1 + (1 - beta) * dt)` where the
divergence uses the forward neighbors selected branchlessly via the
x-axis flag `B`.  (The source also computes `R` and `Y` here but never
uses them in this phase.) -/
def pressurePhase (P : SimP) (cells : List Cell) : List Cell :=
  (List.range (loopSizeNat P)).map (fun (iN : ℕ) =>
    let i : ℤ := (iN : ℤ)
    let thisCell := getCell cells i
    let B : ℤ := thisCell.b
    let beta : ℚ := (B : ℚ)
    let nextCellX := getCell cells (nextXIndex P.gridy i B)
    let nextCellY := getCell cells (nextYIndex i B)
    let divergence := (nextCellX.vx - thisCell.vx) + (nextCellY.vy - thisCell.vy)
    let pr1 := thisCell.pr - P.Cprv * divergence
    { thisCell with pr := pr1 / (1 + (1 - beta) * P.dt) })

/-- Lines 152-178, the velocity-x phase: `for (int i = gridy + 1; i < loopSize; ++i)`,
`vx := beta * (vx - Cv * gradient_x) + (1 - beta) * (Y * z_inv * neighborAirCell.pr)`
with `Y = (1 - R) / (1 + R)` and `B = (int)thisCell.b`. -/
def vxPhase (P : SimP) (bnd : List BoundaryInfo) (cells : List Cell) : List Cell :=
  (List.range (loopSizeNat P)).map (fun (iN : ℕ) =>
    let i : ℤ := (iN : ℤ)
    if i < P.gridy + 1 then getCell cells i else
    let normal := getBnd bnd i
    let neighborAirCell := getCell cells (normalIndex P.gridy i normal)
    let thisCell := getCell cells i
    let B : ℤ := thisCell.b
    let beta : ℚ := (B : ℚ)
    let R := (getBnd bnd i).absorption
    let Y := (1 - R) / (1 + R)
    let prevCell := getCell cells (prevXIndex P.gridy i B)
    let gradient_x := thisCell.pr - prevCell.pr
    let airCellUpdate := thisCell.vx - P.Cv * gradient_x
    let wallCellUpdate := Y * P.z_inv * neighborAirCell.pr
    { thisCell with vx := beta * airCellUpdate + (1 - beta) * wallCellUpdate })

/-- Lines 180-206, the velocity-y phase: `for (int i = 1; i < loopSize; ++i)`,
same shape as the velocity-x phase but with `B = thisCell.by`, the previous
cell at `(i - 1) * B` and the `vy` field.  Note the loop really runs over
every flat index `i ≥ 1`, not over the index set `y ≥ 1` announced by the
source comment "eq to for(0 to sizex) for(1 to sizey)". -/
def vyPhase (P : SimP) (bnd : List BoundaryInfo) (cells : List Cell) : List Cell :=
  (List.range (loopSizeNat P)).map (fun (iN : ℕ) =>
    let i : ℤ := (iN : ℤ)
    if i < 1 then getCell cells i else
    let normal := getBnd bnd i
    let neighborAirCell := getCell cells (normalIndex P.gridy i normal)
    let thisCell := getCell cells i
    let B : ℤ := thisCell.bY
    let beta : ℚ := (B : ℚ)
    let R := (getBnd bnd i).absorption
    let Y := (1 - R) / (1 + R)
    let prevCell := getCell cells (prevYIndex i B)
    let gradient_y := thisCell.pr - prevCell.pr
    let airCellUpdate := thisCell.vy - P.Cv * gradient_y
    let wallCellUpdate := Y * P.z_inv * neighborAirCell.pr
    { thisCell with vy := beta * airCellUpdate + (1 - beta) * wallCellUpdate })

/-- Lines 208-218, outer-edge absorption, top/bottom: for `i` in `[0, gridy)`
the source writes `vx[i] = -pr[i] * z_inv` and then
`vx[gridx*(gridy+1)+i] = pr[gridx*(gridy+1)+i - gridy - 1] * z_inv`; on the
(degenerate `gridx = 0`) overlap the second write wins, so it is tested
first here. -/
def absorbTopBottom (P : SimP) (cells : List Cell) : List Cell :=
  (List.range (loopSizeNat P)).map (fun (jN : ℕ) =>
    let j : ℤ := (jN : ℤ)
    let c := getCell cells j
    if P.gridx * (P.gridy + 1) ≤ j ∧ j < P.gridx * (P.gridy + 1) + P.gridy then
      { c with vx := (getCell cells (j - P.gridy - 1)).pr * P.z_inv }
    else if j < P.gridy then
      { c with vx := -c.pr * P.z_inv }
    else c)

/-- Lines 220-230, outer-edge absorption, left/right: for `i` in `[0, gridx)`
the source writes `vy[i*(gridy+1)] = -pr * z_inv` and then
`vy[i*(gridy+1)+gridy] = pr[· - 1] * z_inv`; membership of `j` in each write
set is expressed through the residue of `j` modulo `gridy + 1`, and the
second write (tested first) wins on the degenerate `gridy = 0` overlap. -/
def absorbLeftRight (P : SimP) (cells : List Cell) : List Cell :=
  (List.range (loopSizeNat P)).map (fun (jN : ℕ) =>
    let j : ℤ := (jN : ℤ)
    let c := getCell cells j
    if j % (P.gridy + 1) = P.gridy ∧ j < P.gridx * (P.gridy + 1) + P.gridy then
      { c with vy := (getCell cells (j - 1)).pr * P.z_inv }
    else if j % (P.gridy + 1) = 0 ∧ j < P.gridx * (P.gridy + 1) then
      { c with vy := -c.pr * P.z_inv }
    else c)

/-- One time step of the simulation: the five phases in source order
(pressure, velocity-x, velocity-y, top/bottom edges, left/right edges). -/
def stepCells (P : SimP) (bnd : List BoundaryInfo) (cells : List Cell) : List Cell :=
  absorbLeftRight P (absorbTopBottom P (vyPhase P bnd (vxPhase P bnd (pressurePhase P cells))))

/-- Line 241: `m_grid[listenerPos].pr += m_pulse[t]` (an unchecked write in
the source; out of range it is a no-op here). -/
def addPulseAt (cells : List Cell) (pos : ℤ) (s : ℚ) : List Cell :=
  if h : 0 ≤ pos ∧ pos.toNat < cells.length then
    cells.set pos.toNat
      (let c := cells.get ⟨pos.toNat, h.2⟩
       { c with pr := c.pr + s })
  else cells

/-- Lines 124-242, the time loop: at step `t` the five phases run, the
resulting state is recorded as the snapshot for time `t` (line 236), and
only then is the excitation sample added at the listener node (line 241).
Returns the final cell state and the chronological snapshot list. -/
def genSnaps (P : SimP) (bnd : List BoundaryInfo) (pulse : List ℚ) (lp : ℤ) :
    ℕ → ℕ → List Cell → List Cell × List (List Cell)
  | _, 0, cells => (cells, [])
  | t, n + 1, cells =>
    let cells1 := stepCells P bnd cells
    let cells2 := addPulseAt cells1 lp (pulse.getD t 0)
    let rest := genSnaps P bnd pulse lp (t + 1) n cells2
    (rest.1, cells1 :: rest.2)

/-- Line 99: `listenerPosX = (int)((listener.x + m_gridOffset.x) / m_dx)`. -/
def listenerPosX (g : GridState) (listener : vec3) : ℤ :=
  ratTrunc ((listener.x + g.gridOffsetX) / g.dx)

/-- Line 100: `listenerPosY = (int)((listener.z + m_gridOffset.y) / m_dx)`. -/
def listenerPosY (g : GridState) (listener : vec3) : ℤ :=
  ratTrunc ((listener.z + g.gridOffsetY) / g.dx)

/-- Line 101: `listenerPos = listenerPosX * (gridy + 1) + listenerPosY`. -/
def listenerPos (g : GridState) (listener : vec3) : ℤ :=
  listenerPosX g listener * (g.gridSizeY + 1) + listenerPosY g listener

/-- Lines 87-243, `Grid::GenerateResponseCPU`: reset the dynamic fields, run
the time loop for `m_responseLength` steps, and store the Response Cube
node-major (`m_pulseResponse[i][t] = m_grid[i]` at time `t`). -/
def GenerateResponseCPU (g : GridState) (listener : vec3) : GridState :=
  let P := paramsOf g
  let lp := listenerPos g listener
  let cells0 := resetCells g.grid
  let r := genSnaps P g.boundaries g.pulse lp 0 g.responseLength cells0
  { g with
    grid := r.1
    pulseResponse := (List.range (loopSizeNat P)).map
      (fun (i : ℕ) => r.2.map (fun s => getCell s (i : ℤ))) }

/-- Lines 245-249, `Grid::GenerateResponseGPU`: `throw pv_InvalidConfig`,
before doing any simulation work. -/
def GenerateResponseGPU (_g : GridState) (_listener : vec3) :
    Except PlaneverbErrorCode GridState :=
  .error .pv_InvalidConfig

/-- Lines 251-261, `Grid::GenerateResponse`: dispatch on the execution
type; a thrown error is an `Except.error`. -/
def GenerateResponse (g : GridState) (listener : vec3) :
    Except PlaneverbErrorCode GridState :=
  match g.executionType with
  | .pv_CPU => .ok (GenerateResponseCPU g listener)
  | .pv_GPU => GenerateResponseGPU g listener

/-- Modelled from the spec: the `INDEX` macro from `Grid.h` (a header not in
the excerpt), flattening a 2D node coordinate row-major with row stride
`incDim.y = sizeY + 1`. -/
def INDEX (x y : ℤ) (incDim : ℤ × ℤ) : ℤ := x * incDim.2 + y

/-- Signed-index read of a node's time series from the Response Cube;
`none` marks an access outside the allocated buffer (which in the source is
an unchecked out-of-bounds memory access, not a checked "no data" result). -/
def cubeGet (cube : List (List Cell)) (i : ℤ) : Option (List Cell) :=
  if 0 ≤ i then cube.get? i.toNat else none

/-- Lines 74-79, `Grid::GetResponse`: the index computed from the grid-space
position, `INDEX((int)gp.x, (int)gp.y, incDim)` with
`incDim = (sizeX + 1, sizeY + 1)`.  The source applies no bounds check. -/
def GetResponseIndex (g : GridState) (gpX gpY : ℚ) : ℤ :=
  INDEX (ratTrunc gpX) (ratTrunc gpY) (g.gridSizeX + 1, g.gridSizeY + 1)

/-- Lines 74-79: the value returned by `Grid::GetResponse`, i.e. the Response
Cube entry at the (unchecked) computed index. -/
def GetResponse (g : GridState) (gpX gpY : ℚ) : Option (List Cell) :=
  cubeGet g.pulseResponse (GetResponseIndex g gpX gpY)

/-- Lines 60-70, `GetImpulseResponse`: grid position is
`(position.x / dx, position.z / dx)` — the world offset is NOT added — and
the pair `(GetResponse, GetResponseSize)` is returned. -/
def GetImpulseResponse (g : GridState) (position : vec3) : Option (List Cell) × ℕ :=
  (GetResponse g (position.x / g.dx) (position.z / g.dx), g.responseLength)

/-- The node index at which `GetImpulseResponse` reads the Response Cube. -/
def queryIndex (g : GridState) (position : vec3) : ℤ :=
  GetResponseIndex g (position.x / g.dx) (position.z / g.dx)

/-- The record returned by the analyzer (`AnalysisResult`, declared outside
the excerpt); only the fields copied by `GetOutput` are modelled. -/
structure AnalysisResult where
  occlusion : ℚ
  wetGain : ℚ
  lowpassIntensity : ℚ
  rt60 : ℚ
  direction : ℚ × ℚ
  sourceDirectivity : ℚ × ℚ
  deriving DecidableEq, Repr

/-- The client-facing record `PlaneverbOutput`. -/
structure PlaneverbOutput where
  occlusion : ℚ
  wetGain : ℚ
  lowpass : ℚ
  rt60 : ℚ
  direction : ℚ × ℚ
  sourceDirectivity : ℚ × ℚ
  deriving DecidableEq, Repr

/-- `std::memset(&out, 0, sizeof(out))` (line 19). -/
def zeroOutput : PlaneverbOutput :=
  { occlusion := 0, wetGain := 0, lowpass := 0, rt60 := 0
    direction := (0, 0), sourceDirectivity := (0, 0) }

/-- Modelled from the spec: the reserved invalid-gain sentinel
`PV_INVALID_DRY_GAIN` (defined in a header outside the excerpt); its exact
numeric value is immaterial to the claims. -/
def PV_INVALID_DRY_GAIN : ℚ := -1

/-- Modelled from the spec (the Context, EmissionManager and Analyzer are
external collaborators, §6): the context resolves an emitter handle to a
world position, and the analyzer resolves a position to a descriptor
record; either lookup can fail. -/
structure ContextModel where
  getEmitter : ℕ → Option vec3
  getResponseResult : vec3 → Option AnalysisResult

/-- Lines 16-58, `GetOutput`: zero the record, then return the sentinel on
each of the three failure cases (no context, unknown emitter, unresolvable
position), otherwise copy the analyzer's values. -/
def GetOutput (context : Option ContextModel) (emitter : ℕ) : PlaneverbOutput :=
  match context with
  | none => { zeroOutput with occlusion := PV_INVALID_DRY_GAIN }
  | some ctx =>
    match ctx.getEmitter emitter with
    | none => { zeroOutput with occlusion := PV_INVALID_DRY_GAIN }
    | some emitterPos =>
      match ctx.getResponseResult emitterPos with
      | none => { zeroOutput with occlusion := PV_INVALID_DRY_GAIN }
      | some result =>
        { occlusion := result.occlusion
          wetGain := result.wetGain
          lowpass := result.lowpassIntensity
          rt60 := result.rt60
          direction := result.direction
          sourceDirectivity := result.sourceDirectivity }

/-- Modelled from the spec: a bounds- and initialization-checked response
query ("no output is produced if no generation has occurred yet or the
mapped index falls outside grid bounds"), for comparison with the source's
unchecked `GetResponse`. -/
def GetResponseChecked (g : GridState) (gpX gpY : ℚ) : Option (List Cell) :=
  let idx := GetResponseIndex g gpX gpY
  if 0 ≤ idx ∧ idx < (g.gridSizeX + 1) * (g.gridSizeY + 1) ∧
      idx.toNat < g.pulseResponse.length then
    cubeGet g.pulseResponse idx
  else none

/-- The static part of a grid state: everything except the dynamic fields
(pressure, velocities) and the Response Cube — configuration, boundary
descriptors, excitation, and the per-node boundary flags. -/
def staticPart (g : GridState) :=
  (g.gridSizeX, g.gridSizeY, g.dx, g.dt, g.z_inv, g.pvC, g.pvRho,
   g.gridOffsetX, g.gridOffsetY, g.responseLength, g.maxThreads,
   g.executionType, g.pulse, g.boundaries,
   g.grid.map (fun c => (c.b, c.bY)))

/-- All dynamic fields of a cell list are zero (as seen through `getCell`,
which also yields zero dynamics out of range). -/
def ZeroDyn (cells : List Cell) : Prop :=
  ∀ i : ℤ, (getCell cells i).pr = 0 ∧ (getCell cells i).vx = 0 ∧ (getCell cells i).vy = 0

/-- The pair of boundary-axis flags of the node at index `i`. -/
def flagsAt (cells : List Cell) (i : ℤ) : ℤ × ℤ :=
  ((getCell cells i).b, (getCell cells i).bY)

/-! ### Concrete fixtures used by counterexamples and witnesses -/

/-- A 1×1-cell (2×2-node) grid with unit constants, zero offset, a
single-sample excitation, and all-medium flags. -/
def baseGrid : GridState :=
  { gridSizeX := 1, gridSizeY := 1, dx := 1, dt := 1, z_inv := 1, pvC := 1, pvRho := 1,
    gridOffsetX := 0, gridOffsetY := 0, responseLength := 1, maxThreads := 0,
    executionType := .pv_CPU, pulse := [1],
    grid := List.replicate 4 { pr := 0, vx := 0, vy := 0, b := 1, bY := 1 },
    boundaries := List.replicate 4 default, pulseResponse := [] }

def gpuGrid : GridState := { baseGrid with executionType := .pv_GPU }

def emptyContext : ContextModel :=
  { getEmitter := fun _ => none, getResponseResult := fun _ => none }

def bnd7 : List BoundaryInfo := List.replicate 4 default

def cells7 : List Cell := List.replicate 4 default

def P7 : SimP := { gridx := 1, gridy := 1, Cv := 1, Cprv := 1, z_inv := 1, dt := 1 }

def P8 : SimP := { gridx := 1, gridy := 1, Cv := 1, Cprv := 1, z_inv := 1, dt := 1 }

def bnd8 : List BoundaryInfo := List.replicate 4 default

def cells8 : List Cell :=
  [default, default, { pr := 1, vx := 0, vy := 5, b := 1, bY := 1 }, default]

def offsetGrid : GridState := { baseGrid with gridOffsetX := 5, gridOffsetY := 5 }

def staleCell99 : Cell := { pr := 99, vx := 0, vy := 0, b := 0, bY := 0 }

/-- A grid on which no generation has ever run, whose response buffer holds
stale marker contents (pressure 99, a value no generation from rest could
record at time 0). -/
def staleGrid : GridState := { baseGrid with pulseResponse := List.replicate 4 [staleCell99] }

/-- A copy of the base grid whose dynamic fields are dirty (pressure 7,
velocities 8 and 9 everywhere) but whose static part is unchanged. -/
def dirtyGrid : GridState :=
  { baseGrid with grid := List.replicate 4 { pr := 7, vx := 8, vy := 9, b := 1, bY := 1 } }

/-! ### Basic lemmas about `getCell` and the phase maps -/

theorem default_cell : (default : Cell) = { pr := 0, vx := 0, vy := 0, b := 0, bY := 0 } := rfl

theorem getCell_neg {cells : List Cell} {i : ℤ} (h : i < 0) : getCell cells i = default := by
  simp [getCell, not_le.mpr h]

theorem getCell_ge {cells : List Cell} {i : ℤ} (h : cells.length ≤ i.toNat) :
    getCell cells i = default := by
  unfold getCell
  split
  · exact List.getD_eq_default _ _ h
  · rfl

theorem getCell_nat (cells : List Cell) (k : ℕ) (h : k < cells.length) :
    getCell cells (k : ℤ) = cells[k] := by
  simp [getCell, List.getD_eq_getElem?_getD, List.getElem?_eq_getElem h]

theorem getCell_map_range (n : ℕ) (f : ℕ → Cell) (i : ℤ) (h0 : 0 ≤ i) (h1 : i.toNat < n) :
    getCell ((List.range n).map f) i = f i.toNat := by
  rw [getCell, if_pos h0, List.getD_eq_getElem _ _ (by simpa using h1),
    List.getElem_map, List.getElem_range]

theorem getCell_map (f : Cell → Cell) (l : List Cell) (i : ℤ) (h0 : 0 ≤ i)
    (h1 : i.toNat < l.length) : getCell (l.map f) i = f (getCell l i) := by
  rw [getCell, getCell, if_pos h0, if_pos h0, List.getD_eq_getElem _ _ (by simpa using h1),
    List.getD_eq_getElem _ _ h1, List.getElem_map]

theorem length_pressurePhase (P : SimP) (cells : List Cell) :
    (pressurePhase P cells).length = loopSizeNat P := by
  simp only [pressurePhase, List.length_map, List.length_range]

theorem length_vxPhase (P : SimP) (bnd : List BoundaryInfo) (cells : List Cell) :
    (vxPhase P bnd cells).length = loopSizeNat P := by
  simp only [vxPhase, List.length_map, List.length_range]

theorem length_vyPhase (P : SimP) (bnd : List BoundaryInfo) (cells : List Cell) :
    (vyPhase P bnd cells).length = loopSizeNat P := by
  simp only [vyPhase, List.length_map, List.length_range]

theorem length_absorbTopBottom (P : SimP) (cells : List Cell) :
    (absorbTopBottom P cells).length = loopSizeNat P := by
  simp only [absorbTopBottom, List.length_map, List.length_range]

theorem length_absorbLeftRight (P : SimP) (cells : List Cell) :
    (absorbLeftRight P cells).length = loopSizeNat P := by
  simp only [absorbLeftRight, List.length_map, List.length_range]

theorem length_stepCells (P : SimP) (bnd : List BoundaryInfo) (cells : List Cell) :
    (stepCells P bnd cells).length = loopSizeNat P := by
  simp only [stepCells, length_absorbLeftRight]

theorem length_addPulseAt (cells : List Cell) (pos : ℤ) (s : ℚ) :
    (addPulseAt cells pos s).length = cells.length := by
  unfold addPulseAt
  split
  · simp
  · rfl

/-! ### Pointwise characterization of each phase -/

theorem pressurePhase_at (P : SimP) (cells : List Cell) (i : ℤ)
    (h0 : 0 ≤ i) (h1 : i.toNat < loopSizeNat P) :
    getCell (pressurePhase P cells) i =
      { getCell cells i with pr :=
          ((getCell cells i).pr - P.Cprv *
            (((getCell cells (nextXIndex P.gridy i (getCell cells i).b)).vx -
                (getCell cells i).vx) +
             ((getCell cells (nextYIndex i (getCell cells i).b)).vy -
                (getCell cells i).vy))) /
          (1 + (1 - ((getCell cells i).b : ℚ)) * P.dt) } := by
  rw [pressurePhase, getCell_map_range _ _ _ h0 h1]
  simp only [Int.toNat_of_nonneg h0]

theorem vxPhase_at_lo (P : SimP) (bnd : List BoundaryInfo) (cells : List Cell) (i : ℤ)
    (h0 : 0 ≤ i) (h1 : i.toNat < loopSizeNat P) (h2 : i < P.gridy + 1) :
    getCell (vxPhase P bnd cells) i = getCell cells i := by
  rw [vxPhase, getCell_map_range _ _ _ h0 h1]
  simp only [Int.toNat_of_nonneg h0, if_pos h2]

theorem vxPhase_at_hi (P : SimP) (bnd : List BoundaryInfo) (cells : List Cell) (i : ℤ)
    (h0 : 0 ≤ i) (h1 : i.toNat < loopSizeNat P) (h2 : P.gridy + 1 ≤ i) :
    getCell (vxPhase P bnd cells) i =
      { getCell cells i with vx :=
          ((getCell cells i).b : ℚ) *
            ((getCell cells i).vx - P.Cv *
              ((getCell cells i).pr -
                (getCell cells (prevXIndex P.gridy i (getCell cells i).b)).pr)) +
          (1 - ((getCell cells i).b : ℚ)) *
            ((1 - (getBnd bnd i).absorption) / (1 + (getBnd bnd i).absorption) *
              P.z_inv * (getCell cells (normalIndex P.gridy i (getBnd bnd i))).pr) } := by
  rw [vxPhase, getCell_map_range _ _ _ h0 h1]
  simp only [Int.toNat_of_nonneg h0, if_neg (not_lt.mpr h2)]

theorem vyPhase_at_lo (P : SimP) (bnd : List BoundaryInfo) (cells : List Cell) (i : ℤ)
    (h0 : 0 ≤ i) (h1 : i.toNat < loopSizeNat P) (h2 : i < 1) :
    getCell (vyPhase P bnd cells) i = getCell cells i := by
  rw [vyPhase, getCell_map_range _ _ _ h0 h1]
  simp only [Int.toNat_of_nonneg h0, if_pos h2]

theorem vyPhase_at_hi (P : SimP) (bnd : List BoundaryInfo) (cells : List Cell) (i : ℤ)
    (h0 : 0 ≤ i) (h1 : i.toNat < loopSizeNat P) (h2 : 1 ≤ i) :
    getCell (vyPhase P bnd cells) i =
      { getCell cells i with vy :=
          ((getCell cells i).bY : ℚ) *
            ((getCell cells i).vy - P.Cv *
              ((getCell cells i).pr -
                (getCell cells (prevYIndex i (getCell cells i).bY)).pr)) +
          (1 - ((getCell cells i).bY : ℚ)) *
            ((1 - (getBnd bnd i).absorption) / (1 + (getBnd bnd i).absorption) *
              P.z_inv * (getCell cells (normalIndex P.gridy i (getBnd bnd i))).pr) } := by
  rw [vyPhase, getCell_map_range _ _ _ h0 h1]
  simp only [Int.toNat_of_nonneg h0, if_neg (not_lt.mpr h2)]

theorem absorbTopBottom_at (P : SimP) (cells : List Cell) (i : ℤ)
    (h0 : 0 ≤ i) (h1 : i.toNat < loopSizeNat P) :
    getCell (absorbTopBottom P cells) i =
      (if P.gridx * (P.gridy + 1) ≤ i ∧ i < P.gridx * (P.gridy + 1) + P.gridy then
        { getCell cells i with vx := (getCell cells (i - P.gridy - 1)).pr * P.z_inv }
      else if i < P.gridy then
        { getCell cells i with vx := -(getCell cells i).pr * P.z_inv }
      else getCell cells i) := by
  rw [absorbTopBottom, getCell_map_range _ _ _ h0 h1]
  simp only [Int.toNat_of_nonneg h0]

theorem absorbLeftRight_at (P : SimP) (cells : List Cell) (i : ℤ)
    (h0 : 0 ≤ i) (h1 : i.toNat < loopSizeNat P) :
    getCell (absorbLeftRight P cells) i =
      (if i % (P.gridy + 1) = P.gridy ∧ i < P.gridx * (P.gridy + 1) + P.gridy then
        { getCell cells i with vy := (getCell cells (i - 1)).pr * P.z_inv }
      else if i % (P.gridy + 1) = 0 ∧ i < P.gridx * (P.gridy + 1) then
        { getCell cells i with vy := -(getCell cells i).pr * P.z_inv }
      else getCell cells i) := by
  rw [absorbLeftRight, getCell_map_range _ _ _ h0 h1]
  simp only [Int.toNat_of_nonneg h0]

/-! ### Preservation of the all-zero dynamic state (the state after reset) -/

theorem zeroDyn_resetCells (l : List Cell) : ZeroDyn (resetCells l) := by
  intro i
  by_cases h0 : 0 ≤ i
  · by_cases h1 : i.toNat < l.length
    · rw [resetCells, getCell_map _ _ _ h0 h1]
      exact ⟨rfl, rfl, rfl⟩
    · rw [getCell_ge (by simpa [resetCells] using not_lt.mp h1)]
      exact ⟨rfl, rfl, rfl⟩
  · rw [getCell_neg (not_le.mp h0)]
    exact ⟨rfl, rfl, rfl⟩

theorem zeroDyn_pressurePhase (P : SimP) (cells : List Cell) (h : ZeroDyn cells) :
    ZeroDyn (pressurePhase P cells) := by
  intro i
  by_cases h0 : 0 ≤ i
  · by_cases h1 : i.toNat < loopSizeNat P
    · rw [pressurePhase_at P cells i h0 h1]
      refine ⟨?_, (h i).2.1, (h i).2.2⟩
      rw [(h i).1, (h i).2.1, (h i).2.2,
        (h (nextXIndex P.gridy i (getCell cells i).b)).2.1,
        (h (nextYIndex i (getCell cells i).b)).2.2]
      norm_num
    · rw [getCell_ge (by rw [length_pressurePhase]; omega)]
      exact ⟨rfl, rfl, rfl⟩
  · rw [getCell_neg (not_le.mp h0)]
    exact ⟨rfl, rfl, rfl⟩

theorem zeroDyn_vxPhase (P : SimP) (bnd : List BoundaryInfo) (cells : List Cell)
    (h : ZeroDyn cells) : ZeroDyn (vxPhase P bnd cells) := by
  intro i
  by_cases h0 : 0 ≤ i
  · by_cases h1 : i.toNat < loopSizeNat P
    · by_cases h2 : i < P.gridy + 1
      · rw [vxPhase_at_lo P bnd cells i h0 h1 h2]
        exact h i
      · rw [vxPhase_at_hi P bnd cells i h0 h1 (not_lt.mp h2)]
        refine ⟨(h i).1, ?_, (h i).2.2⟩
        rw [(h i).1, (h i).2.1,
          (h (prevXIndex P.gridy i (getCell cells i).b)).1,
          (h (normalIndex P.gridy i (getBnd bnd i))).1]
        ring
    · rw [getCell_ge (by rw [length_vxPhase]; omega)]
      exact ⟨rfl, rfl, rfl⟩
  · rw [getCell_neg (not_le.mp h0)]
    exact ⟨rfl, rfl, rfl⟩

theorem zeroDyn_vyPhase (P : SimP) (bnd : List BoundaryInfo) (cells : List Cell)
    (h : ZeroDyn cells) : ZeroDyn (vyPhase P bnd cells) := by
  intro i
  by_cases h0 : 0 ≤ i
  · by_cases h1 : i.toNat < loopSizeNat P
    · by_cases h2 : i < 1
      · rw [vyPhase_at_lo P bnd cells i h0 h1 h2]
        exact h i
      · rw [vyPhase_at_hi P bnd cells i h0 h1 (not_lt.mp h2)]
        refine ⟨(h i).1, (h i).2.1, ?_⟩
        rw [(h i).1, (h i).2.2,
          (h (prevYIndex i (getCell cells i).bY)).1,
          (h (normalIndex P.gridy i (getBnd bnd i))).1]
        ring
    · rw [getCell_ge (by rw [length_vyPhase]; omega)]
      exact ⟨rfl, rfl, rfl⟩
  · rw [getCell_neg (not_le.mp h0)]
    exact ⟨rfl, rfl, rfl⟩

theorem zeroDyn_absorbTopBottom (P : SimP) (cells : List Cell) (h : ZeroDyn cells) :
    ZeroDyn (absorbTopBottom P cells) := by
  intro i
  by_cases h0 : 0 ≤ i
  · by_cases h1 : i.toNat < loopSizeNat P
    · rw [absorbTopBottom_at P cells i h0 h1]
      split_ifs with hc1 hc2
      · exact ⟨(h i).1, by rw [(h (i - P.gridy - 1)).1, zero_mul], (h i).2.2⟩
      · exact ⟨(h i).1, by rw [(h i).1]; ring, (h i).2.2⟩
      · exact h i
    · rw [getCell_ge (by rw [length_absorbTopBottom]; omega)]
      exact ⟨rfl, rfl, rfl⟩
  · rw [getCell_neg (not_le.mp h0)]
    exact ⟨rfl, rfl, rfl⟩

theorem zeroDyn_absorbLeftRight (P : SimP) (cells : List Cell) (h : ZeroDyn cells) :
    ZeroDyn (absorbLeftRight P cells) := by
  intro i
  by_cases h0 : 0 ≤ i
  · by_cases h1 : i.toNat < loopSizeNat P
    · rw [absorbLeftRight_at P cells i h0 h1]
      split_ifs with hc1 hc2
      · exact ⟨(h i).1, (h i).2.1, by rw [(h (i - 1)).1, zero_mul]⟩
      · exact ⟨(h i).1, (h i).2.1, by rw [(h i).1]; ring⟩
      · exact h i
    · rw [getCell_ge (by rw [length_absorbLeftRight]; omega)]
      exact ⟨rfl, rfl, rfl⟩
  · rw [getCell_neg (not_le.mp h0)]
    exact ⟨rfl, rfl, rfl⟩

theorem zeroDyn_stepCells (P : SimP) (bnd : List BoundaryInfo) (cells : List Cell)
    (h : ZeroDyn cells) : ZeroDyn (stepCells P bnd cells) :=
  zeroDyn_absorbLeftRight P _ (zeroDyn_absorbTopBottom P _
    (zeroDyn_vyPhase P bnd _ (zeroDyn_vxPhase P bnd _ (zeroDyn_pressurePhase P _ h))))

/-! ### Preservation of the per-node boundary flags by every phase -/

theorem flags_resetCells (l : List Cell) (i : ℤ) : flagsAt (resetCells l) i = flagsAt l i := by
  unfold flagsAt
  by_cases h0 : 0 ≤ i
  · by_cases h1 : i.toNat < l.length
    · rw [resetCells, getCell_map _ _ _ h0 h1]
    · rw [getCell_ge (by simpa [resetCells] using not_lt.mp h1), getCell_ge (not_lt.mp h1)]
  · rw [getCell_neg (not_le.mp h0), getCell_neg (not_le.mp h0)]

theorem flags_pressurePhase (P : SimP) (cells : List Cell) (i : ℤ)
    (h0 : 0 ≤ i) (h1 : i.toNat < loopSizeNat P) :
    flagsAt (pressurePhase P cells) i = flagsAt cells i := by
  unfold flagsAt
  rw [pressurePhase_at P cells i h0 h1]

theorem flags_vxPhase (P : SimP) (bnd : List BoundaryInfo) (cells : List Cell) (i : ℤ)
    (h0 : 0 ≤ i) (h1 : i.toNat < loopSizeNat P) :
    flagsAt (vxPhase P bnd cells) i = flagsAt cells i := by
  unfold flagsAt
  by_cases h2 : i < P.gridy + 1
  · rw [vxPhase_at_lo P bnd cells i h0 h1 h2]
  · rw [vxPhase_at_hi P bnd cells i h0 h1 (not_lt.mp h2)]

theorem flags_vyPhase (P : SimP) (bnd : List BoundaryInfo) (cells : List Cell) (i : ℤ)
    (h0 : 0 ≤ i) (h1 : i.toNat < loopSizeNat P) :
    flagsAt (vyPhase P bnd cells) i = flagsAt cells i := by
  unfold flagsAt
  by_cases h2 : i < 1
  · rw [vyPhase_at_lo P bnd cells i h0 h1 h2]
  · rw [vyPhase_at_hi P bnd cells i h0 h1 (not_lt.mp h2)]

theorem flags_absorbTopBottom (P : SimP) (cells : List Cell) (i : ℤ)
    (h0 : 0 ≤ i) (h1 : i.toNat < loopSizeNat P) :
    flagsAt (absorbTopBottom P cells) i = flagsAt cells i := by
  unfold flagsAt
  rw [absorbTopBottom_at P cells i h0 h1]
  split_ifs <;> rfl

theorem flags_absorbLeftRight (P : SimP) (cells : List Cell) (i : ℤ)
    (h0 : 0 ≤ i) (h1 : i.toNat < loopSizeNat P) :
    flagsAt (absorbLeftRight P cells) i = flagsAt cells i := by
  unfold flagsAt
  rw [absorbLeftRight_at P cells i h0 h1]
  split_ifs <;> rfl

theorem flags_stepCells (P : SimP) (bnd : List BoundaryInfo) (cells : List Cell) (i : ℤ)
    (h0 : 0 ≤ i) (h1 : i.toNat < loopSizeNat P) :
    flagsAt (stepCells P bnd cells) i = flagsAt cells i := by
  unfold stepCells
  rw [flags_absorbLeftRight P _ i h0 h1, flags_absorbTopBottom P _ i h0 h1,
    flags_vyPhase P bnd _ i h0 h1, flags_vxPhase P bnd _ i h0 h1,
    flags_pressurePhase P cells i h0 h1]

theorem flags_addPulseAt (cells : List Cell) (pos : ℤ) (s : ℚ) (i : ℤ) :
    flagsAt (addPulseAt cells pos s) i = flagsAt cells i := by
  unfold flagsAt addPulseAt
  split
  case isFalse => rfl
  case isTrue hp =>
    unfold getCell
    by_cases h0 : 0 ≤ i
    · simp only [if_pos h0, List.getD_eq_getElem?_getD, List.getElem?_set]
      by_cases he : pos.toNat = i.toNat
      · rw [if_pos he, if_pos (he ▸ hp.2), ← he, List.getElem?_eq_getElem hp.2]
        rfl
      · rw [if_neg he]
    · simp only [if_neg h0]

theorem flags_genSnaps (P : SimP) (bnd : List BoundaryInfo) (pulse : List ℚ) (lp : ℤ) :
    ∀ (n t : ℕ) (cells : List Cell) (i : ℤ), 0 ≤ i → i.toNat < loopSizeNat P →
      flagsAt (genSnaps P bnd pulse lp t n cells).1 i = flagsAt cells i := by
  intro n
  induction n with
  | zero => intro t cells i _ _; rfl
  | succ m ih =>
    intro t cells i h0 h1
    show flagsAt (genSnaps P bnd pulse lp (t + 1) m
      (addPulseAt (stepCells P bnd cells) lp (pulse.getD t 0))).1 i = flagsAt cells i
    rw [ih (t + 1) _ i h0 h1, flags_addPulseAt, flags_stepCells P bnd cells i h0 h1]

theorem length_genSnaps (P : SimP) (bnd : List BoundaryInfo) (pulse : List ℚ) (lp : ℤ) :
    ∀ (n t : ℕ) (cells : List Cell), cells.length = loopSizeNat P →
      (genSnaps P bnd pulse lp t n cells).1.length = loopSizeNat P := by
  intro n
  induction n with
  | zero => intro t cells hc; exact hc
  | succ m ih =>
    intro t cells hc
    show (genSnaps P bnd pulse lp (t + 1) m
      (addPulseAt (stepCells P bnd cells) lp (pulse.getD t 0))).1.length = loopSizeNat P
    exact ih (t + 1) _ (by rw [length_addPulseAt, length_stepCells])

/-! ### C3 — GPU mode fails with a configuration error -/

/-- C3: for every listener position, generating the response with the GPU
execution mode selected yields the `pv_InvalidConfig` configuration error
(and in particular never the `ok` result of the CPU path): the GPU stub
throws before doing any simulation work. -/
theorem c3_gpu_mode_fails (g : GridState) (l : vec3)
    (h : g.executionType = PlaneverbExecutionType.pv_GPU) :
    GenerateResponse g l = Except.error PlaneverbErrorCode.pv_InvalidConfig := by
  simp [GenerateResponse, h, GenerateResponseGPU]

/-- Witness for C3 at a concrete grid in GPU mode. -/
theorem c3_gpu_mode_fails_witness :
    gpuGrid.executionType = PlaneverbExecutionType.pv_GPU ∧
      GenerateResponse gpuGrid ⟨0, 0, 0⟩ = Except.error PlaneverbErrorCode.pv_InvalidConfig :=
  ⟨rfl, c3_gpu_mode_fails gpuGrid ⟨0, 0, 0⟩ rfl⟩

/-! ### C6 — sentinel propagation in the descriptor query -/

/-- C6: the descriptor query returns the reserved invalid-gain sentinel in
the occlusion field in each of the three failure cases (no context, unknown
emitter, unresolvable emitter position), and otherwise returns the
analyzer's descriptor values. -/
theorem c6_sentinel_propagation (ctx : ContextModel) (e : ℕ) (pos : vec3)
    (r : AnalysisResult) :
    (GetOutput none e).occlusion = PV_INVALID_DRY_GAIN
  ∧ (ctx.getEmitter e = none → (GetOutput (some ctx) e).occlusion = PV_INVALID_DRY_GAIN)
  ∧ (ctx.getEmitter e = some pos → ctx.getResponseResult pos = none →
      (GetOutput (some ctx) e).occlusion = PV_INVALID_DRY_GAIN)
  ∧ (ctx.getEmitter e = some pos → ctx.getResponseResult pos = some r →
      GetOutput (some ctx) e =
        { occlusion := r.occlusion, wetGain := r.wetGain, lowpass := r.lowpassIntensity,
          rt60 := r.rt60, direction := r.direction,
          sourceDirectivity := r.sourceDirectivity }) := by
  refine ⟨rfl, ?_, ?_, ?_⟩
  · intro h1
    simp [GetOutput, h1]
  · intro h1 h2
    simp [GetOutput, h1, h2]
  · intro h1 h2
    simp [GetOutput, h1, h2]

/-- Witness for C6: with a context that knows no emitters, the descriptor
query returns the sentinel. -/
theorem c6_sentinel_propagation_witness :
    (GetOutput (some emptyContext) 0).occlusion = PV_INVALID_DRY_GAIN :=
  (c6_sentinel_propagation emptyContext 0 ⟨0, 0, 0⟩
    ⟨0, 0, 0, 0, (0, 0), (0, 0)⟩).2.1 rfl

/-! ### C7 — boundary velocity blend and admittance -/

/-- C7: in both velocity phases a node's velocity becomes
`beta * (medium update) + (1 - beta) * (Y * z_inv * neighborPressure)` with
admittance `Y = (1 - R) / (1 + R)`; for `R = 1` the wall-cell contribution
vanishes (a boundary node's velocity is set to 0), and for `R = 0` the
admittance is 1 (fully reflective). -/
theorem c7_velocity_blend_admittance (P : SimP) (bnd : List BoundaryInfo)
    (cells : List Cell) (i : ℤ)
    (h1 : i.toNat < loopSizeNat P) (h2 : P.gridy + 1 ≤ i) (h3 : 0 ≤ P.gridy) :
    ((getCell (vxPhase P bnd cells) i).vx =
      ((getCell cells i).b : ℚ) *
        ((getCell cells i).vx - P.Cv *
          ((getCell cells i).pr -
            (getCell cells (prevXIndex P.gridy i (getCell cells i).b)).pr)) +
      (1 - ((getCell cells i).b : ℚ)) *
        ((1 - (getBnd bnd i).absorption) / (1 + (getBnd bnd i).absorption) *
          P.z_inv * (getCell cells (normalIndex P.gridy i (getBnd bnd i))).pr))
  ∧ ((getCell (vyPhase P bnd cells) i).vy =
      ((getCell cells i).bY : ℚ) *
        ((getCell cells i).vy - P.Cv *
          ((getCell cells i).pr -
            (getCell cells (prevYIndex i (getCell cells i).bY)).pr)) +
      (1 - ((getCell cells i).bY : ℚ)) *
        ((1 - (getBnd bnd i).absorption) / (1 + (getBnd bnd i).absorption) *
          P.z_inv * (getCell cells (normalIndex P.gridy i (getBnd bnd i))).pr))
  ∧ ((getBnd bnd i).absorption = 1 →
      (1 - (getBnd bnd i).absorption) / (1 + (getBnd bnd i).absorption) = 0
      ∧ ((getCell cells i).b = 0 → (getCell (vxPhase P bnd cells) i).vx = 0)
      ∧ ((getCell cells i).bY = 0 → (getCell (vyPhase P bnd cells) i).vy = 0))
  ∧ ((getBnd bnd i).absorption = 0 →
      (1 - (getBnd bnd i).absorption) / (1 + (getBnd bnd i).absorption) = 1
      ∧ ((getCell cells i).b = 0 →
          (getCell (vxPhase P bnd cells) i).vx =
            P.z_inv * (getCell cells (normalIndex P.gridy i (getBnd bnd i))).pr)) := by
  have h0 : 0 ≤ i := by omega
  have hy : (1 : ℤ) ≤ i := by omega
  have ex := vxPhase_at_hi P bnd cells i h0 h1 h2
  have ey := vyPhase_at_hi P bnd cells i h0 h1 hy
  refine ⟨by rw [ex], by rw [ey], ?_, ?_⟩
  · intro hR
    refine ⟨by rw [hR]; norm_num, ?_, ?_⟩
    · intro hb
      rw [ex]
      show (((getCell cells i).b : ℚ) * _ + (1 - ((getCell cells i).b : ℚ)) * _ : ℚ) = 0
      rw [hb, hR]
      norm_num
    · intro hb
      rw [ey]
      show (((getCell cells i).bY : ℚ) * _ + (1 - ((getCell cells i).bY : ℚ)) * _ : ℚ) = 0
      rw [hb, hR]
      norm_num
  · intro hR
    refine ⟨by rw [hR]; norm_num, ?_⟩
    intro hb
    rw [ex]
    show (((getCell cells i).b : ℚ) * _ + (1 - ((getCell cells i).b : ℚ)) * _ : ℚ) =
      P.z_inv * (getCell cells (normalIndex P.gridy i (getBnd bnd i))).pr
    rw [hb, hR]
    norm_num

/-- Witness for C7 at a concrete phase input with absorption 0: the
admittance evaluates to 1. -/
theorem c7_velocity_blend_admittance_witness :
    (1 - (getBnd bnd7 2).absorption) / (1 + (getBnd bnd7 2).absorption) = 1 :=
  ((c7_velocity_blend_admittance P7 bnd7 cells7 2 (by decide) (by decide)
    (by decide)).2.2.2 (by decide)).1

/-! ### C10 — range of the branchless neighbor indices -/

/-- C10 counterexample: on a 1×1-cell grid (`loopSize = 4`, last allocated
index 3) the claim's universal "stays within the allocated cell array for
every node" fails at the medium node `i = 3` (forward-x index 5), while at
the last-COLUMN medium node `i = 1` (not in the last row) both pressure-phase
forward indices 3 and 2 stay within bounds, contrary to the claim's "last
grid row or column" wording. -/
theorem c10_counterexample :
    (nextXIndex 1 3 1 = 5 ∧ ¬ nextXIndex 1 3 1 < 4)
  ∧ (nextXIndex 1 1 1 = 3 ∧ nextXIndex 1 1 1 < 4
     ∧ nextYIndex 1 1 = 2 ∧ nextYIndex 1 1 < 4) := by
  decide

/-- C10 (amended): for a boundary node (`B = 0`) every branchless neighbor
index collapses to node 0; the indexing does NOT stay within the allocated
array for every node: a medium node in the last grid row sends the
pressure-phase forward-x index `(i + gridy + 1) * B` past the last allocated
cell, and the very last node also sends `(i + 1) * B` past it, whereas for
a medium node in the last column but not the last row both forward indices
stay within the allocation. -/
theorem c10_amended (gridx gridy i : ℤ) (hx : 0 ≤ gridx) (hy : 0 ≤ gridy) :
    (nextXIndex gridy i 0 = 0 ∧ nextYIndex i 0 = 0
      ∧ prevXIndex gridy i 0 = 0 ∧ prevYIndex i 0 = 0)
  ∧ (gridx * (gridy + 1) ≤ i → i < (gridx + 1) * (gridy + 1) →
      ¬ nextXIndex gridy i 1 < (gridx + 1) * (gridy + 1))
  ∧ (i = (gridx + 1) * (gridy + 1) - 1 →
      ¬ nextYIndex i 1 < (gridx + 1) * (gridy + 1))
  ∧ (i % (gridy + 1) = gridy → 0 ≤ i → i < gridx * (gridy + 1) →
      nextXIndex gridy i 1 < (gridx + 1) * (gridy + 1)
      ∧ nextYIndex i 1 < (gridx + 1) * (gridy + 1)) := by
  have hsum : (gridx + 1) * (gridy + 1) = gridx * (gridy + 1) + (gridy + 1) := by ring
  refine ⟨⟨by simp [nextXIndex], by simp [nextYIndex],
    by simp [prevXIndex], by simp [prevYIndex]⟩, ?_, ?_, ?_⟩
  · intro hlo _
    unfold nextXIndex
    rw [hsum]
    omega
  · intro hi
    unfold nextYIndex
    omega
  · intro _ hge hlt
    unfold nextXIndex nextYIndex
    rw [hsum]
    omega

/-- Witness for C10: the collapse-to-zero case and the last-row
out-of-range case, concretely on the 1×1-cell grid. -/
theorem c10_amended_witness :
    nextXIndex 1 1 0 = 0 ∧ ¬ nextXIndex 1 3 1 < (1 + 1) * (1 + 1) :=
  ⟨((c10_amended 1 1 1 (by decide) (by decide)).1).1,
   (c10_amended 1 1 3 (by decide) (by decide)).2.1 (by decide) (by decide)⟩

/-! ### C8 — iteration space of the velocity phases -/

/-- C8 (code bug): on a 1×1-cell grid (`gridy = 1`, row stride 2), the
velocity-y phase DOES update node `i = 2`, whose y-index is
`2 % (gridy + 1) = 0` (its `vy` changes from 5 to `5 - Cv * (pr[2] - pr[1]) = 4`),
because the source loop runs over every flat index `i ≥ 1`; the inline
source comment ("eq to for(0 to sizex) for(1 to sizey)") and the claim both
say nodes with y-index 0 are not updated.  The x phase, by contrast, does
start at flat index `gridy + 1`, which exactly matches x-index ≥ 1. -/
theorem c8_vy_phase_updates_y0_node :
    (2 : ℤ) % (P8.gridy + 1) = 0
  ∧ (getCell cells8 2).vy = 5
  ∧ (getCell (vyPhase P8 bnd8 cells8) 2).vy = 4 := by
  have h := vyPhase_at_hi P8 bnd8 cells8 2 (by decide) (by decide) (by decide)
  have e2 : getCell cells8 2 = { pr := 1, vx := 0, vy := 5, b := 1, bY := 1 } := rfl
  have eg : getBnd bnd8 2 = default := rfl
  have ep : getCell cells8 (prevYIndex 2 1) = default := rfl
  have en : getCell cells8 (normalIndex P8.gridy 2 default) =
      { pr := 1, vx := 0, vy := 5, b := 1, bY := 1 } := rfl
  have eb : (default : BoundaryInfo) = { absorption := 0, normalX := 0, normalY := 0 } := rfl
  have hCv : P8.Cv = 1 := rfl
  have hz : P8.z_inv = 1 := rfl
  refine ⟨by decide, rfl, ?_⟩
  simp only [h, e2, eg, ep, en, eb, default_cell, hCv, hz]
  norm_num

/-! ### C5 — position mapping of the two paths -/

/-- C5 counterexample: with `gridOffset = (5,5)`, `dx = 1` and
`sizeY = 1`, the listener-placement path maps the world origin to node
index `(0+5)/1 * 2 + (0+5)/1 = 15`, but the response-query path maps the
same world position to index `0/1 * 2 + 0/1 = 0`: the two paths do not use
the same mapping formula. -/
theorem c5_counterexample :
    queryIndex offsetGrid ⟨0, 0, 0⟩ = 0
  ∧ listenerPos offsetGrid ⟨0, 0, 0⟩ = 15
  ∧ ¬ queryIndex offsetGrid ⟨0, 0, 0⟩ = listenerPos offsetGrid ⟨0, 0, 0⟩ := by
  have hq : queryIndex offsetGrid ⟨0, 0, 0⟩ = 0 := by
    norm_num [queryIndex, GetResponseIndex, INDEX, offsetGrid, baseGrid, ratTrunc]
  have hl : listenerPos offsetGrid ⟨0, 0, 0⟩ = 15 := by
    norm_num [listenerPos, listenerPosX, listenerPosY, offsetGrid, baseGrid, ratTrunc]
  exact ⟨hq, hl, by rw [hq, hl]; decide⟩

/-- C5 (amended): the listener-placement path maps a world coordinate via
`(worldCoordinate + gridOffset) / dx` truncated, but the response-query
path divides the raw world coordinate by `dx` WITHOUT adding the grid
offset; both flatten row-major with row stride `sizeY + 1`, and the two
mappings agree whenever the grid offset is zero. -/
theorem c5_two_mapping_formulas (g : GridState) (p : vec3) :
    queryIndex g p =
      ratTrunc (p.x / g.dx) * (g.gridSizeY + 1) + ratTrunc (p.z / g.dx)
  ∧ listenerPos g p =
      ratTrunc ((p.x + g.gridOffsetX) / g.dx) * (g.gridSizeY + 1) +
        ratTrunc ((p.z + g.gridOffsetY) / g.dx)
  ∧ GetImpulseResponse g p = (cubeGet g.pulseResponse (queryIndex g p), g.responseLength)
  ∧ (g.gridOffsetX = 0 → g.gridOffsetY = 0 → queryIndex g p = listenerPos g p) := by
  refine ⟨rfl, rfl, rfl, ?_⟩
  intro h1 h2
  simp [queryIndex, GetResponseIndex, INDEX, listenerPos, listenerPosX, listenerPosY,
    h1, h2, add_zero]

/-- Witness for C5 (amended): with zero offset both paths agree at a
concrete position. -/
theorem c5_two_mapping_formulas_witness :
    queryIndex baseGrid ⟨1, 0, 1⟩ = listenerPos baseGrid ⟨1, 0, 1⟩ :=
  (c5_two_mapping_formulas baseGrid ⟨1, 0, 1⟩).2.2.2 rfl rfl

theorem ratTrunc_zero : ratTrunc 0 = 0 := rfl

/-! ### C4 — reset of dynamic fields, boundary data untouched -/

/-- C4: at the start of a generate-response call the reset pass zeroes the
pressure and both velocity components of every node while keeping its
boundary-axis flags, and the entire call leaves both the boundary
descriptor array and the per-node boundary flags unchanged. -/
theorem c4_reset_zeroes_boundaries_untouched (g : GridState) (l : vec3) (i : ℤ)
    (h0 : 0 ≤ i) (h1 : i.toNat < loopSizeNat (paramsOf g)) :
    ((getCell (resetCells g.grid) i).pr = 0 ∧ (getCell (resetCells g.grid) i).vx = 0 ∧
      (getCell (resetCells g.grid) i).vy = 0)
  ∧ flagsAt (resetCells g.grid) i = flagsAt g.grid i
  ∧ (GenerateResponseCPU g l).boundaries = g.boundaries
  ∧ flagsAt (GenerateResponseCPU g l).grid i = flagsAt g.grid i := by
  refine ⟨zeroDyn_resetCells g.grid i, flags_resetCells g.grid i, rfl, ?_⟩
  have hgrid : (GenerateResponseCPU g l).grid =
      (genSnaps (paramsOf g) g.boundaries g.pulse (listenerPos g l) 0 g.responseLength
        (resetCells g.grid)).1 := rfl
  rw [hgrid,
    flags_genSnaps (paramsOf g) g.boundaries g.pulse (listenerPos g l) g.responseLength 0
      (resetCells g.grid) i h0 h1,
    flags_resetCells g.grid i]

/-- Witness for C4 on the concrete base grid at node 2. -/
theorem c4_reset_zeroes_boundaries_untouched_witness :
    flagsAt (GenerateResponseCPU baseGrid ⟨0, 0, 0⟩).grid 2 = flagsAt baseGrid.grid 2
  ∧ (GenerateResponseCPU baseGrid ⟨0, 0, 0⟩).boundaries = baseGrid.boundaries :=
  ⟨(c4_reset_zeroes_boundaries_untouched baseGrid ⟨0, 0, 0⟩ 2 (by decide)
      (by decide)).2.2.2,
   (c4_reset_zeroes_boundaries_untouched baseGrid ⟨0, 0, 0⟩ 2 (by decide)
      (by decide)).2.2.1⟩

/-! ### C1 — record happens before the excitation is injected -/

/-- C1: in every simulation step the snapshot recorded in the Response Cube
is the state produced by the five phases, and the excitation sample is
added to the listener node's pressure only afterwards (it only feeds the
state carried into the next step); consequently, for a run started from the
reset (at-rest) state the sample recorded at time index 0 for the listener
node (indeed its whole cell) is zero, not the excitation value. -/
theorem c1_record_before_excitation (g : GridState) (l : vec3)
    (hlen : 0 < g.responseLength)
    (h0 : 0 ≤ listenerPos g l)
    (h1 : (listenerPos g l).toNat < loopSizeNat (paramsOf g)) :
    (∀ (t n : ℕ) (cells : List Cell),
      (genSnaps (paramsOf g) g.boundaries g.pulse (listenerPos g l) t (n + 1) cells).2 =
        stepCells (paramsOf g) g.boundaries cells ::
          (genSnaps (paramsOf g) g.boundaries g.pulse (listenerPos g l) (t + 1) n
            (addPulseAt (stepCells (paramsOf g) g.boundaries cells) (listenerPos g l)
              (g.pulse.getD t 0))).2)
  ∧ ∃ c : Cell,
      ((GenerateResponseCPU g l).pulseResponse.getD (listenerPos g l).toNat []).get? 0 =
        some c ∧ c.pr = 0 ∧ c.vx = 0 ∧ c.vy = 0 := by
  constructor
  · intro t n cells
    rfl
  · obtain ⟨m, hm⟩ : ∃ m, g.responseLength = m + 1 := ⟨g.responseLength - 1, by omega⟩
    have hcube : (GenerateResponseCPU g l).pulseResponse =
        (List.range (loopSizeNat (paramsOf g))).map
          (fun (i : ℕ) => ((genSnaps (paramsOf g) g.boundaries g.pulse (listenerPos g l) 0
              g.responseLength (resetCells g.grid)).2).map
            (fun s => getCell s (i : ℤ))) := rfl
    rw [hcube, List.getD_eq_getElem _ _ (by simpa using h1), List.getElem_map,
      List.getElem_range, hm]
    have hsnap : (genSnaps (paramsOf g) g.boundaries g.pulse (listenerPos g l) 0 (m + 1)
        (resetCells g.grid)).2 =
        stepCells (paramsOf g) g.boundaries (resetCells g.grid) ::
          (genSnaps (paramsOf g) g.boundaries g.pulse (listenerPos g l) 1 m
            (addPulseAt (stepCells (paramsOf g) g.boundaries (resetCells g.grid))
              (listenerPos g l) (g.pulse.getD 0 0))).2 := rfl
    rw [hsnap]
    have zd := zeroDyn_stepCells (paramsOf g) g.boundaries (resetCells g.grid)
      (zeroDyn_resetCells g.grid)
    exact ⟨_, rfl, (zd _).1, (zd _).2.1, (zd _).2.2⟩

/-- Witness for C1 on the concrete base grid (excitation `[1]`): the
recorded sample at time 0 for the listener node is the zero cell. -/
theorem c1_record_before_excitation_witness :
    0 < baseGrid.responseLength
  ∧ ∃ c : Cell,
      ((GenerateResponseCPU baseGrid ⟨0, 0, 0⟩).pulseResponse.getD
          (listenerPos baseGrid ⟨0, 0, 0⟩).toNat []).get? 0 =
        some c ∧ c.pr = 0 ∧ c.vx = 0 ∧ c.vy = 0 :=
  ⟨by decide,
   (c1_record_before_excitation baseGrid ⟨0, 0, 0⟩ (by decide)
      (by simp [listenerPos, listenerPosX, listenerPosY, baseGrid, ratTrunc_zero])
      (by simp [listenerPos, listenerPosX, listenerPosY, baseGrid, ratTrunc_zero,
        loopSizeNat, loopSize, paramsOf])).2⟩

/-! ### C2 — the response query performs no bounds or initialization check -/

/-- C2 counterexample: the query operation is not bounds- or
initialization-checked.  On a grid where no generation has occurred, a
query at an in-range position returns the stale buffer contents (pressure
99) rather than a "no data" result; and a position mapping to node index
20 of a 4-node allocation is accessed unchecked — the access target lies
outside the allocated buffer (`cubeGet` yields `none` because entry 20
does not exist; in the source this is an out-of-bounds memory access, not
a checked result). -/
theorem c2_counterexample :
    (GetResponse staleGrid 0 0 = some [staleCell99] ∧ staleCell99.pr = 99)
  ∧ (GetResponseIndex staleGrid 10 0 = 20 ∧ staleGrid.pulseResponse.length = 4
      ∧ GetResponse staleGrid 10 0 = none) := by
  decide

/-- C2 (amended): `GetResponse` maps the grid position to
`trunc(x) * (sizeY + 1) + trunc(y)` and returns the response-buffer entry
at that index unconditionally — whatever the buffer holds, generated or
not; only when the index lies outside the allocated buffer is there no
entry to return (an unchecked out-of-bounds access in the source).  The
spec-modelled checked query agrees with the source exactly when it
produces an answer. -/
theorem c2_query_unchecked (g : GridState) (gpX gpY : ℚ) :
    GetResponseIndex g gpX gpY = ratTrunc gpX * (g.gridSizeY + 1) + ratTrunc gpY
  ∧ (0 ≤ GetResponseIndex g gpX gpY →
      (GetResponseIndex g gpX gpY).toNat < g.pulseResponse.length →
      GetResponse g gpX gpY = g.pulseResponse.get? (GetResponseIndex g gpX gpY).toNat)
  ∧ (g.pulseResponse.length ≤ (GetResponseIndex g gpX gpY).toNat →
      GetResponse g gpX gpY = none)
  ∧ (∀ res : List Cell, GetResponseChecked g gpX gpY = some res →
      GetResponse g gpX gpY = some res) := by
  refine ⟨rfl, ?_, ?_, ?_⟩
  · intro hge _
    unfold GetResponse cubeGet
    rw [if_pos hge]
  · intro hlen
    unfold GetResponse cubeGet
    split
    · rw [List.get?_eq_getElem?]
      exact List.getElem?_eq_none hlen
    · rfl
  · intro res hres
    unfold GetResponseChecked at hres
    by_cases hc : 0 ≤ GetResponseIndex g gpX gpY ∧
        GetResponseIndex g gpX gpY < (g.gridSizeX + 1) * (g.gridSizeY + 1) ∧
        (GetResponseIndex g gpX gpY).toNat < g.pulseResponse.length
    · rw [if_pos hc] at hres
      exact hres
    · rw [if_neg hc] at hres
      exact absurd hres (by simp)

/-- Witness for C2 (amended): on the stale grid, the in-range query at the
origin returns buffer entry 0. -/
theorem c2_query_unchecked_witness :
    GetResponse staleGrid 0 0 = staleGrid.pulseResponse.get? (GetResponseIndex staleGrid 0 0).toNat :=
  (c2_query_unchecked staleGrid 0 0).2.1 (by decide) (by decide)

/-! ### C9 — determinism of generation -/

theorem gen_deterministic (g1 g2 : GridState) (l : vec3)
    (hs : staticPart g1 = staticPart g2) :
    (GenerateResponseCPU g1 l).pulseResponse = (GenerateResponseCPU g2 l).pulseResponse := by
  simp only [staticPart, Prod.mk.injEq] at hs
  obtain ⟨e1, e2, e3, e4, e5, e6, e7, e8, e9, e10, e11, e12, e13, e14, e15⟩ := hs
  have hmm : ∀ L : List Cell, resetCells L =
      (L.map (fun c => (c.b, c.bY))).map
        (fun p => { pr := 0, vx := 0, vy := 0, b := p.1, bY := p.2 }) := by
    intro L
    rw [resetCells, List.map_map]
    rfl
  have hreset : resetCells g1.grid = resetCells g2.grid := by rw [hmm, hmm, e15]
  have hP : paramsOf g1 = paramsOf g2 := by
    simp only [paramsOf, e1, e2, e3, e4, e5, e6, e7]
  have hlp : listenerPos g1 l = listenerPos g2 l := by
    simp only [listenerPos, listenerPosX, listenerPosY, e2, e3, e8, e9]
  simp only [GenerateResponseCPU]
  rw [hP, hlp, hreset, e10, e13, e14]

theorem flagsMap_generate (g : GridState) (l : vec3)
    (hlen : g.grid.length = loopSizeNat (paramsOf g)) :
    (GenerateResponseCPU g l).grid.map (fun c => (c.b, c.bY)) =
      g.grid.map (fun c => (c.b, c.bY)) := by
  have hg : (GenerateResponseCPU g l).grid =
      (genSnaps (paramsOf g) g.boundaries g.pulse (listenerPos g l) 0 g.responseLength
        (resetCells g.grid)).1 := rfl
  have hrl : (resetCells g.grid).length = loopSizeNat (paramsOf g) := by
    rw [resetCells, List.length_map, hlen]
  have hfl : (GenerateResponseCPU g l).grid.length = loopSizeNat (paramsOf g) := by
    rw [hg]
    exact length_genSnaps _ _ _ _ _ _ _ hrl
  apply List.ext_getElem
  · rw [List.length_map, List.length_map, hfl, hlen]
  · intro k hk1 hk2
    have hk : k < loopSizeNat (paramsOf g) := by
      rw [List.length_map, hfl] at hk1
      exact hk1
    have hkg : k < g.grid.length := by
      rw [hlen]
      exact hk
    have ha : flagsAt (GenerateResponseCPU g l).grid (k : ℤ) = flagsAt g.grid (k : ℤ) := by
      rw [hg,
        flags_genSnaps (paramsOf g) g.boundaries g.pulse (listenerPos g l) g.responseLength 0
          (resetCells g.grid) (k : ℤ) (by positivity) (by simpa using hk),
        flags_resetCells]
    unfold flagsAt at ha
    rw [getCell_nat _ k (by rw [hfl]; exact hk), getCell_nat _ k hkg] at ha
    rw [List.getElem_map, List.getElem_map]
    exact ha

theorem staticPart_generate (g : GridState) (l : vec3)
    (hlen : g.grid.length = loopSizeNat (paramsOf g)) :
    staticPart (GenerateResponseCPU g l) = staticPart g := by
  unfold staticPart
  rw [flagsMap_generate g l hlen]
  rfl

/-- C9: generation is deterministic in the static inputs — grid
configuration, boundary descriptors, boundary flags, excitation sequence
and listener position: two states agreeing on the static part (whatever
their dynamic pressure/velocity fields and previous Response Cube hold)
produce identical Response Cubes, and a repeated generation call on the
same grid reproduces the same Response Cube bit for bit. -/
theorem c9_determinism (g1 g2 : GridState) (l : vec3)
    (hs : staticPart g1 = staticPart g2)
    (hlen : g1.grid.length = loopSizeNat (paramsOf g1)) :
    (GenerateResponseCPU g1 l).pulseResponse = (GenerateResponseCPU g2 l).pulseResponse
  ∧ (GenerateResponseCPU (GenerateResponseCPU g1 l) l).pulseResponse =
      (GenerateResponseCPU g1 l).pulseResponse :=
  ⟨gen_deterministic g1 g2 l hs,
   gen_deterministic (GenerateResponseCPU g1 l) g1 l (staticPart_generate g1 l hlen)⟩

/-- Witness for C9: the dirty grid and the base grid produce the same
Response Cube. -/
theorem c9_determinism_witness :
    (GenerateResponseCPU dirtyGrid ⟨0, 0, 0⟩).pulseResponse =
      (GenerateResponseCPU baseGrid ⟨0, 0, 0⟩).pulseResponse :=
  (c9_determinism dirtyGrid baseGrid ⟨0, 0, 0⟩ rfl (by decide)).1
